import Mathlib

/-!
# Tide Tracker — verification of the frontend against its specification

Shallow embedding of the Tide Tracker React frontend (App.jsx and its
components) together with spec-modelled fragments of the FastAPI backend
that is not part of the checked-in sources.  Timestamps are modelled as
integer milliseconds since the epoch (the value of a JavaScript `Date`),
heights and temperatures as rationals, and fallible lookups as `Option`.
-/

namespace TideTracker

/-- Tide event classification (`High` / `Low`), as produced by the backend
and consumed as a string `"High"`/`"Low"` by the frontend. -/
inductive TideType where
  | High
  | Low
deriving DecidableEq, Repr

/-- A tide entry of the bundle's `next_tides` array as the frontend sees it:
`{time, type, height, relative_time}`. -/
structure DisplayTide where
  time : Int
  type : String
  height : ℚ
  relative_time : String
deriving DecidableEq, Repr

/-- `daily_summary` of the bundle. -/
structure DailySummary where
  high_tides_count : Nat
  low_tides_count : Nat
  max_height : ℚ
  min_height : ℚ
deriving DecidableEq, Repr

/-- A current-weather snapshot; `visibility` is optional. -/
structure WeatherSnapshot where
  temperature : ℚ
  feels_like : ℚ
  condition : String
  wind_speed : ℚ
  humidity : Int
  visibility : Option ℚ
  pressure : Int
deriving DecidableEq, Repr

/-- One forecast entry `{time, temperature, condition, wind_speed}`. -/
structure ForecastPoint where
  time : String
  temperature : ℚ
  condition : String
  wind_speed : ℚ
deriving DecidableEq, Repr

/-- The `weather` field of a bundle: a current snapshot plus a forecast
sequence, either of which may be missing. -/
structure WeatherData where
  current : Option WeatherSnapshot
  forecast : List ForecastPoint
deriving DecidableEq, Repr

/-- `marine_conditions` of the bundle, as rendered by the frontend. -/
structure MarineConditions where
  overall_rating : String
  suitability : List (String × ℚ)
  warnings : List String
deriving DecidableEq, Repr

/-- `recommendations` of the bundle. -/
structure Recommendation where
  best_activity : String
  best_time : Option Int
  tips : List String
deriving DecidableEq, Repr

/-- The tide/weather bundle returned by the backend `/tides` endpoint,
restricted to the fields the frontend reads. -/
structure Bundle where
  lat : ℚ
  lon : ℚ
  location_name : Option String
  next_tides : List DisplayTide
  daily_summary : Option DailySummary
  weather : Option WeatherData
  marine_conditions : Option MarineConditions
  recommendations : Option Recommendation
deriving DecidableEq, Repr

/-- `getTimeUntilTide` from App.jsx: the difference `tide - now` in
milliseconds; `"Past"` when negative, otherwise whole hours and remaining
whole minutes, the hours part omitted when zero. -/
def getTimeUntilTide (now tide : Int) : String :=
  let diff := tide - now
  if diff < 0 then "Past"
  else
    let hours := diff / 3600000
    let minutes := diff % 3600000 / 60000
    if hours = 0 then toString minutes ++ "m"
    else toString hours ++ "h " ++ toString minutes ++ "m"

/-- A string obtained by appending `"m"` never equals `"Past"`: the final
characters differ. -/
theorem append_m_ne_Past (s : String) : s ++ "m" ≠ "Past" := by
  intro h
  have hdata : (s ++ "m").data = "Past".data := congrArg String.data h
  rw [String.data_append] at hdata
  have hlast : (s.data ++ "m".data).getLast? = "Past".data.getLast? :=
    congrArg List.getLast? hdata
  simp [List.getLast?_concat] at hlast

/-- C1: `getTimeUntilTide` returns `"Past"` exactly when the event time is
strictly before the current time; otherwise it returns the whole hours and
remaining whole minutes until the event, omitting the hours part when it is
zero. -/
theorem getTimeUntilTide_correct (now tide : Int) :
    (getTimeUntilTide now tide = "Past" ↔ tide < now) ∧
    (now ≤ tide → ∃ h m : Int, 0 ≤ h ∧ 0 ≤ m ∧ m < 60 ∧
      h * 3600000 + m * 60000 ≤ tide - now ∧
      tide - now < h * 3600000 + (m + 1) * 60000 ∧
      getTimeUntilTide now tide =
        (if h = 0 then toString m ++ "m" else toString h ++ "h " ++ toString m ++ "m")) := by
  constructor
  · by_cases hneg : tide - now < 0
    · have hpast : getTimeUntilTide now tide = "Past" := by
        simp only [getTimeUntilTide, if_pos hneg]
      exact iff_of_true hpast (by omega)
    · simp only [getTimeUntilTide, if_neg hneg]
      constructor
      · intro hstr
        exfalso
        by_cases hz : (tide - now) / 3600000 = 0
        · rw [if_pos hz] at hstr
          exact append_m_ne_Past _ hstr
        · rw [if_neg hz] at hstr
          exact append_m_ne_Past _ hstr
      · intro hlt; exact absurd hlt (by omega)
  · intro hle
    have hneg : ¬ tide - now < 0 := by omega
    refine ⟨(tide - now) / 3600000, (tide - now) % 3600000 / 60000,
      by omega, by omega, by omega, by omega, by omega, ?_⟩
    simp only [getTimeUntilTide, if_neg hneg]

/-- Closed witness for C1: three hours and five minutes before an event the
display reads `"3h 5m"`; one minute after it, `"Past"`. -/
theorem getTimeUntilTide_correct_witness :
    getTimeUntilTide 0 11100000 = "3h 5m" ∧ getTimeUntilTide 60000 0 = "Past" := by
  constructor
  · obtain ⟨h, m, _, _, _, hlo, hhi, heq⟩ :=
      (getTimeUntilTide_correct 0 11100000).2 (by omega)
    have hh : h = 3 := by omega
    have hm : m = 5 := by omega
    rw [heq, hh, hm]
    decide
  · exact (getTimeUntilTide_correct 60000 0).1.mpr (by omega)

/-- `handleAPIError` from App.jsx: maps the failed response's HTTP status to
an error message; statuses other than 422/500/404 surface the error's own
message, falling back to a generic one when that message is empty or
absent. -/
def handleAPIError (status : Option Nat) (message : Option String) : String :=
  if status = some 422 then
    "Invalid location coordinates provided. Please check your location settings."
  else if status = some 500 then
    "Server error occurred. This might be due to missing API keys or service unavailability."
  else if status = some 404 then
    "API endpoint not found. Please check if the backend server is running."
  else
    match message with
    | some m => if m = "" then "An unexpected error occurred" else m
    | none => "An unexpected error occurred"

/-- The visibility cell of WeatherCard's conditions grid: JavaScript
truthiness on `current.visibility`, so an absent (or zero) value renders the
`"N/A"` placeholder. -/
def visibilityDisplay (v : Option ℚ) : String :=
  match v with
  | some x => if x = 0 then "N/A" else toString x ++ "km"
  | none => "N/A"

/-- What WeatherCard puts on screen for a current snapshot. -/
structure RenderedWeather where
  temperature : String
  feels_like : String
  condition : String
  wind : String
  humidity : String
  visibility : String
  pressure : String
  forecastShown : List ForecastPoint
deriving DecidableEq, Repr

/-- WeatherCard's body once the guard has passed: the current-conditions
grid plus up to four forecast rows. -/
def renderCurrent (c : WeatherSnapshot) (forecast : List ForecastPoint) : RenderedWeather :=
  { temperature := toString c.temperature ++ "°C"
    feels_like := "Feels like " ++ toString c.feels_like ++ "°C"
    condition := c.condition
    wind := toString c.wind_speed ++ " m/s"
    humidity := toString c.humidity ++ "%"
    visibility := visibilityDisplay c.visibility
    pressure := toString c.pressure ++ " hPa"
    forecastShown := if forecast.isEmpty then [] else forecast.take 4 }

/-- `WeatherCard` component: returns `null` (here `none`) when `weather` is
absent or has no `current` snapshot, otherwise renders the snapshot. -/
def weatherCard (weather : Option WeatherData) : Option RenderedWeather :=
  match weather with
  | none => none
  | some w =>
    match w.current with
    | none => none
    | some c => some (renderCurrent c w.forecast)

/-- One card of the primary "Next tides" pair in App.jsx. -/
structure TideCard where
  label : String
  tideType : String
  timeDisplay : String
  relative : String
  height : ℚ
deriving DecidableEq, Repr

/-- The primary tide display of App.jsx:
`tideData.next_tides.slice(0, 2).map(...)`, labelling index 0 `"Next"` and
index 1 `"Following"`.  `fmt` stands for the locale-dependent
`formatTime`. -/
def nextTideCards (fmt : Int → String) (tides : List DisplayTide) : List TideCard :=
  (tides.take 2).mapIdx fun i t =>
    { label := if i = 0 then "Next" else "Following"
      tideType := t.type
      timeDisplay := fmt t.time
      relative := t.relative_time
      height := t.height }

/-- The parts of App.jsx's main grid relevant to the claims. -/
structure RenderedMain where
  tideCards : List TideCard
  tideChart : List DisplayTide
  weatherSlot : Option RenderedWeather
  dailySummary : Option DailySummary

/-- App.jsx's `{tideData && (...)}` block: renders nothing without a bundle;
with one, renders the tide cards, the tide chart and the daily summary, and
delegates the weather slot to `weatherCard`. -/
def appMain (fmt : Int → String) (tideData : Option Bundle) : Option RenderedMain :=
  match tideData with
  | none => none
  | some b =>
    some { tideCards := nextTideCards fmt b.next_tides
           tideChart := b.next_tides
           weatherSlot := weatherCard b.weather
           dailySummary := b.daily_summary }

/-- A string obtained by appending `"km"` never equals `"N/A"`: the final
characters differ. -/
theorem append_km_ne_NA (s : String) : s ++ "km" ≠ "N/A" := by
  intro h
  have hdata : (s ++ "km").data = "N/A".data := congrArg String.data h
  rw [String.data_append] at hdata
  have hlast : (s.data ++ "km".data).getLast? = "N/A".data.getLast? :=
    congrArg List.getLast? hdata
  simp [List.getLast?_append] at hlast

/-- C4: the error handler maps status 422 to the invalid-coordinates
message, 500 to the server/configuration message, 404 to the
endpoint-not-found message, and any other failure to the error's own
message; the three category messages are pairwise distinct. -/
theorem handleAPIError_categories :
    (∀ msg, handleAPIError (some 422) msg =
      "Invalid location coordinates provided. Please check your location settings.") ∧
    (∀ msg, handleAPIError (some 500) msg =
      "Server error occurred. This might be due to missing API keys or service unavailability.") ∧
    (∀ msg, handleAPIError (some 404) msg =
      "API endpoint not found. Please check if the backend server is running.") ∧
    (∀ status m, status ≠ some 422 → status ≠ some 500 → status ≠ some 404 →
      m ≠ "" → handleAPIError status (some m) = m) ∧
    (handleAPIError (some 422) none ≠ handleAPIError (some 500) none ∧
     handleAPIError (some 422) none ≠ handleAPIError (some 404) none ∧
     handleAPIError (some 500) none ≠ handleAPIError (some 404) none) := by
  refine ⟨fun _ => rfl, fun _ => rfl, fun _ => rfl, ?_, by decide⟩
  intro status m h1 h2 h3 h4
  unfold handleAPIError
  rw [if_neg h1, if_neg h2, if_neg h3]
  simp [h4]

/-- Closed witness for C4: an unrecognized failure surfaces its own
message. -/
theorem handleAPIError_categories_witness :
    handleAPIError none (some "Failed to fetch") = "Failed to fetch" :=
  handleAPIError_categories.2.2.2.1 none "Failed to fetch"
    (by decide) (by decide) (by decide) (by decide)

/-- Counterexample to C7 as stated: a snapshot whose `visibility` is present
with value `0` still renders the `"N/A"` placeholder, because the component
tests JavaScript truthiness rather than presence. -/
theorem visibility_zero_counterexample :
    (⟨20, 19, "clear", 3, 50, some 0, 1013⟩ : WeatherSnapshot).visibility ≠ none ∧
    (renderCurrent ⟨20, 19, "clear", 3, 50, some 0, 1013⟩ []).visibility = "N/A" := by
  exact ⟨by decide, by decide⟩

/-- C7 (amended): the rendered visibility is `"N/A"` exactly when the
snapshot's `visibility` is absent or zero, and shows the value in km exactly
when it is present and nonzero. -/
theorem visibilityDisplay_amended (c : WeatherSnapshot) (forecast : List ForecastPoint) :
    ((renderCurrent c forecast).visibility = "N/A" ↔
      (c.visibility = none ∨ c.visibility = some 0)) ∧
    (∀ v, c.visibility = some v → v ≠ 0 →
      (renderCurrent c forecast).visibility = toString v ++ "km") := by
  have hvis : (renderCurrent c forecast).visibility = visibilityDisplay c.visibility := rfl
  rw [hvis]
  rcases hc : c.visibility with _ | x
  · refine ⟨iff_of_true rfl (Or.inl rfl), ?_⟩
    intro v hv
    exact absurd hv (by simp)
  · by_cases hx : x = 0
    · subst hx
      refine ⟨iff_of_true (by decide) (Or.inr rfl), ?_⟩
      intro v hv hvne
      injection hv with hxv
      exact absurd hxv.symm hvne
    · constructor
      · simp only [visibilityDisplay, if_neg hx]
        constructor
        · intro habs
          exact absurd habs (append_km_ne_NA _)
        · rintro (h | h)
          · exact absurd h (by simp)
          · exact absurd (Option.some.inj h) hx
      · intro v hv hvne
        injection hv with hxv
        subst hxv
        simp only [visibilityDisplay, if_neg hvne]

/-- Closed witness for C7 (amended): a present, nonzero visibility of 10 km
renders as `"10km"`. -/
theorem visibilityDisplay_amended_witness :
    (renderCurrent ⟨20, 19, "clear", 3, 50, some 10, 1013⟩ []).visibility =
      toString (10 : ℚ) ++ "km" :=
  (visibilityDisplay_amended ⟨20, 19, "clear", 3, 50, some 10, 1013⟩ []).2 10 rfl
    (by norm_num)

/-- C5: a bundle whose weather is absent or lacks a current snapshot is
still rendered: the weather slot is `none` (WeatherCard returns `null`)
while the tide cards, the tide chart and the daily summary render from the
bundle as usual. -/
theorem bundle_without_weather_renders (fmt : Int → String) (b : Bundle)
    (h : b.weather = none ∨ ∃ w, b.weather = some w ∧ w.current = none) :
    appMain fmt (some b) =
      some { tideCards := nextTideCards fmt b.next_tides
             tideChart := b.next_tides
             weatherSlot := none
             dailySummary := b.daily_summary } := by
  have hw : weatherCard b.weather = none := by
    rcases h with h | ⟨w, hw, hc⟩
    · rw [h]
      rfl
    · rw [hw]
      simp [weatherCard, hc]
  simp [appMain, hw]

/-- Closed witness for C5: a bundle with two tide events and no weather at
all still renders its tide cards with the weather slot empty. -/
theorem bundle_without_weather_renders_witness :
    appMain (fun _ => "t") (some
      ⟨(404 : ℚ) / 10, -74, none,
        [⟨3600000, "High", 2, "1h 0m"⟩, ⟨25200000, "Low", 2 / 10, "7h 0m"⟩],
        none, none, none, none⟩) =
      some { tideCards := nextTideCards (fun _ => "t")
               [⟨3600000, "High", 2, "1h 0m"⟩, ⟨25200000, "Low", 2 / 10, "7h 0m"⟩]
             tideChart := [⟨3600000, "High", 2, "1h 0m"⟩, ⟨25200000, "Low", 2 / 10, "7h 0m"⟩]
             weatherSlot := none
             dailySummary := none } :=
  bundle_without_weather_renders (fun _ => "t") _ (Or.inl rfl)

/-- C6: the primary display shows exactly the first two entries of
`next_tides` (fewer when fewer exist), labelling index 0 `"Next"` and index
1 `"Following"`, each carrying its formatted time, relative time and
height. -/
theorem nextTideCards_first_two (fmt : Int → String) (tides : List DisplayTide) :
    nextTideCards fmt tides =
      match tides with
      | [] => []
      | [t] => [⟨"Next", t.type, fmt t.time, t.relative_time, t.height⟩]
      | t1 :: t2 :: _ =>
          [⟨"Next", t1.type, fmt t1.time, t1.relative_time, t1.height⟩,
           ⟨"Following", t2.type, fmt t2.time, t2.relative_time, t2.height⟩] := by
  match tides with
  | [] => rfl
  | [t] => rfl
  | t1 :: t2 :: rest => rfl

/-- Coordinates as the frontend stores them: `{lat, lon, accuracy}`, the
accuracy optional. -/
structure Coords where
  lat : ℚ
  lon : ℚ
  accuracy : Option ℚ
deriving DecidableEq, Repr

/-- The JSON object `saveLocation` writes under `tideApp_location`. -/
structure StoredLocation where
  coords : Coords
  timestamp : Int
deriving DecidableEq, Repr

/-- `loadStoredLocation` from App.jsx.  The `tideApp_location` entry is
modelled after retrieval and JSON parsing: `none` when no entry exists (or
`getItem` yields a falsy value), `some none` when the entry exists but
parsing throws (the exception is caught), `some (some s)` when it parses.
The coordinates are returned only when the stored timestamp is less than
3600000 ms (one hour) old; every other path falls through to `null`. -/
def loadStoredLocation (now : Int) (stored : Option (Option StoredLocation)) :
    Option Coords :=
  match stored with
  | none => none
  | some none => none
  | some (some s) =>
    if now - s.timestamp < 3600000 then some s.coords else none

/-- C9: `loadStoredLocation` returns the stored coordinates exactly when an
entry exists, parses, and its timestamp is strictly less than one hour old;
in every other case it returns `none` (and, being total, never throws). -/
theorem loadStoredLocation_spec (now : Int) (stored : Option (Option StoredLocation))
    (c : Coords) :
    loadStoredLocation now stored = some c ↔
      ∃ s, stored = some (some s) ∧ now - s.timestamp < 3600000 ∧ s.coords = c := by
  match stored with
  | none =>
    simp [loadStoredLocation]
  | some none =>
    simp [loadStoredLocation]
  | some (some s) =>
    simp only [loadStoredLocation]
    by_cases hage : now - s.timestamp < 3600000
    · rw [if_pos hage]
      constructor
      · intro h
        exact ⟨s, rfl, hage, Option.some.inj h⟩
      · rintro ⟨s2, hs2, _, hc⟩
        injection hs2 with hs3
        injection hs3 with hs4
        rw [← hs4] at hc
        rw [hc]
    · rw [if_neg hage]
      constructor
      · intro h
        exact absurd h (by simp)
      · rintro ⟨s2, hs2, hage2, _⟩
        injection hs2 with hs3
        injection hs3 with hs4
        rw [← hs4] at hage2
        exact absurd hage2 hage

/-- Closed witness for C9: a 10-minute-old entry is returned; a 2-hour-old
one and an unparseable one are not. -/
theorem loadStoredLocation_spec_witness :
    loadStoredLocation 600000 (some (some ⟨⟨1, 2, none⟩, 0⟩)) = some ⟨1, 2, none⟩ ∧
    loadStoredLocation 7200000 (some (some ⟨⟨1, 2, none⟩, 0⟩)) = none ∧
    loadStoredLocation 600000 (some none) = none := by
  refine ⟨?_, ?_, ?_⟩
  · exact (loadStoredLocation_spec 600000 (some (some ⟨⟨1, 2, none⟩, 0⟩)) ⟨1, 2, none⟩).mpr
      ⟨⟨⟨1, 2, none⟩, 0⟩, rfl, by decide, rfl⟩
  · decide
  · decide

/-- The application state touched by `clearAllLocalStorage` in App.jsx:
the browser's local storage (key/value pairs) together with the React state
fields the handler resets. -/
structure AppState where
  storage : List (String × String)
  location : Option Coords
  tideData : Option Bundle
  autoRefresh : Bool
  refreshInterval : Nat
deriving DecidableEq

/-- `clearAllLocalStorage` from App.jsx: asks for confirmation; when the
user confirms, clears local storage and resets location, tide data,
auto-refresh and the refresh interval to their defaults; when the user
declines, nothing happens. -/
def clearAllLocalStorage (confirmClear : Bool) (s : AppState) : AppState :=
  if confirmClear then
    { storage := []
      location := none
      tideData := none
      autoRefresh := true
      refreshInterval := 30 * 60 * 1000 }
  else s

/-- C10: declining the confirmation leaves storage and every state field
unchanged; confirming clears storage and resets the four state fields. -/
theorem clearAllLocalStorage_frame (s : AppState) :
    clearAllLocalStorage false s = s ∧
    (clearAllLocalStorage false s).storage = s.storage ∧
    (clearAllLocalStorage false s).location = s.location ∧
    (clearAllLocalStorage false s).tideData = s.tideData ∧
    (clearAllLocalStorage false s).autoRefresh = s.autoRefresh ∧
    (clearAllLocalStorage false s).refreshInterval = s.refreshInterval ∧
    (clearAllLocalStorage true s).storage = [] ∧
    (clearAllLocalStorage true s).location = none ∧
    (clearAllLocalStorage true s).tideData = none ∧
    (clearAllLocalStorage true s).autoRefresh = true ∧
    (clearAllLocalStorage true s).refreshInterval = 30 * 60 * 1000 := by
  simp [clearAllLocalStorage]

/-- The `services` object of the health response. -/
structure HealthServices where
  tides_api : String
  weather_api : String
deriving DecidableEq, Repr

/-- The health response `{status, cache_entries, services}` consumed by
`checkBackendHealth` and rendered by LocationSettings. -/
structure HealthResponse where
  status : String
  cache_entries : Nat
  services : HealthServices
deriving DecidableEq, Repr

/-- Modelled from the spec: the backend health operation is not among the
checked-in sources.  Per §4.6 it reports `healthy` when both upstream
services are configured and `degraded` otherwise, the cache entry count,
and per-service configuration state `configured` / `missing_credentials`. -/
def healthReport (tidesConfigured weatherConfigured : Bool) (cacheEntries : Nat) :
    HealthResponse :=
  { status := if tidesConfigured && weatherConfigured then "healthy" else "degraded"
    cache_entries := cacheEntries
    services :=
      { tides_api := if tidesConfigured then "configured" else "missing_credentials"
        weather_api := if weatherConfigured then "configured" else "missing_credentials" } }

/-- The Backend Status panel of LocationSettings: the labelled rows it
renders from the health response stored by `checkBackendHealth`. -/
def renderBackendStatus (h : HealthResponse) : List (String × String) :=
  [("Status:", h.status),
   ("Cache entries:", toString h.cache_entries),
   ("Tides API:", h.services.tides_api),
   ("Weather API:", h.services.weather_api)]

/-- C8: the health response carries exactly `status`, `cache_entries` and
the two service fields, each service field being `"configured"` or
`"missing_credentials"`, and the client renders precisely those four
fields. -/
theorem healthReport_shape (tc wc : Bool) (n : Nat) :
    ((healthReport tc wc n).services.tides_api = "configured" ∨
      (healthReport tc wc n).services.tides_api = "missing_credentials") ∧
    ((healthReport tc wc n).services.weather_api = "configured" ∨
      (healthReport tc wc n).services.weather_api = "missing_credentials") ∧
    (healthReport tc wc n).cache_entries = n ∧
    ((healthReport tc wc n).status = "healthy" ∨ (healthReport tc wc n).status = "degraded") ∧
    renderBackendStatus (healthReport tc wc n) =
      [("Status:", (healthReport tc wc n).status),
       ("Cache entries:", toString n),
       ("Tides API:", (healthReport tc wc n).services.tides_api),
       ("Weather API:", (healthReport tc wc n).services.weather_api)] := by
  cases tc <;> cases wc <;>
    exact ⟨by simp [healthReport], by simp [healthReport], rfl, by simp [healthReport], rfl⟩

/-- Modelled from the spec: a raw tide-provider extremum `(time, height)`
with the provider's own High/Low classification when present (§4.2); the
backend Tide Deriver is not among the checked-in sources. -/
structure RawExtremum where
  time : Int
  height : ℚ
  rawType : Option TideType
deriving DecidableEq, Repr

/-- A derived tide event `{time, type, height}` (§3). -/
structure TideEvent where
  time : Int
  type : TideType
  height : ℚ
deriving DecidableEq, Repr

/-- Modelled from the spec: classification of one extremum (§4.2 step 1) —
the provider's classification is used when present; otherwise a local
maximum against its neighbours is High and a local minimum is Low. -/
def classifyType (prev : Option RawExtremum) (e : RawExtremum)
    (next : Option RawExtremum) : TideType :=
  match e.rawType with
  | some t => t
  | none =>
    match next, prev with
    | some n, _ => if n.height < e.height then TideType.High else TideType.Low
    | none, some p => if p.height < e.height then TideType.High else TideType.Low
    | none, none => TideType.High

/-- Modelled from the spec: walk the extrema list classifying each entry
against its neighbours (§4.2 step 1). -/
def classifyExtrema : Option RawExtremum → List RawExtremum → List TideEvent
  | _, [] => []
  | prev, e :: rest =>
    { time := e.time, type := classifyType prev e rest.head?, height := e.height } ::
      classifyExtrema (some e) rest

instance : DecidableRel fun (a b : TideEvent) => a.time ≤ b.time :=
  fun a b => Int.decLe a.time b.time

instance : IsTotal TideEvent fun a b => a.time ≤ b.time :=
  ⟨fun a b => Int.le_total a.time b.time⟩

instance : IsTrans TideEvent fun a b => a.time ≤ b.time :=
  ⟨fun _ _ _ h1 h2 => le_trans h1 h2⟩

/-- Modelled from the spec: the Tide Deriver's `next_tides` (§4.2 steps
1–2) — classify the raw extrema, order them ascending by time, and filter
to events with `time ≥ now`; the backend itself is not among the checked-in
sources. -/
def deriveNextTides (now : Int) (raw : List RawExtremum) : List TideEvent :=
  (List.insertionSort (fun a b => a.time ≤ b.time) (classifyExtrema none raw)).filter
    fun e => decide (now ≤ e.time)

/-- C2: `next_tides` is non-decreasing in event time and, when non-empty,
contains no event strictly before the query time. -/
theorem deriveNextTides_sorted_future (now : Int) (raw : List RawExtremum) :
    List.Sorted (fun a b => a.time ≤ b.time) (deriveNextTides now raw) ∧
    ∀ e ∈ deriveNextTides now raw, ¬ e.time < now := by
  constructor
  · exact (List.sorted_insertionSort _ _).sublist (List.filter_sublist _)
  · intro e he
    have hmem := List.of_mem_filter he
    simp only [decide_eq_true_eq] at hmem
    omega

/-- Closed witness for C2: out-of-order raw extrema with one past event
derive into a sorted, future-only `next_tides`, whose first event is the
nearest one. -/
theorem deriveNextTides_sorted_future_witness :
    List.Sorted (fun a b : TideEvent => a.time ≤ b.time)
      (deriveNextTides 0
        [⟨25200000, 1, some TideType.Low⟩,
         ⟨3600000, 2, some TideType.High⟩,
         ⟨-60000, 1, none⟩]) ∧
    ¬ (⟨3600000, TideType.High, 2⟩ : TideEvent).time < 0 := by
  constructor
  · exact (deriveNextTides_sorted_future 0 _).1
  · exact (deriveNextTides_sorted_future 0
      [⟨25200000, 1, some TideType.Low⟩,
       ⟨3600000, 2, some TideType.High⟩,
       ⟨-60000, 1, none⟩]).2 ⟨3600000, TideType.High, 2⟩ (by decide)

/-- The overall marine-conditions rating bucket (§3). -/
inductive Rating where
  | Excellent
  | Good
  | Fair
  | Poor
deriving DecidableEq, Repr

/-- Modelled from the spec: the mean of all suitability scores (§4.3); the
backend Marine Condition Scorer is not among the checked-in sources. -/
def meanSuitability (suitability : List (String × ℚ)) : ℚ :=
  (suitability.map Prod.snd).sum / ((suitability.map Prod.snd).length : ℚ)

/-- Modelled from the spec: `overall_rating` buckets the mean of all
suitability scores — the mean is the fixed, documented aggregation policy
here — with thresholds ≥8 Excellent, ≥6 Good, ≥4 Fair, else Poor (§4.3). -/
def overallRating (suitability : List (String × ℚ)) : Rating :=
  if 8 ≤ meanSuitability suitability then Rating.Excellent
  else if 6 ≤ meanSuitability suitability then Rating.Good
  else if 4 ≤ meanSuitability suitability then Rating.Fair
  else Rating.Poor

/-- C3: `overall_rating` buckets the mean of the suitability scores —
Excellent at mean ≥ 8, Good at ≥ 6, Fair at ≥ 4, else Poor — and is a pure
deterministic function of the suitability map. -/
theorem overallRating_buckets (s : List (String × ℚ)) :
    (8 ≤ meanSuitability s → overallRating s = Rating.Excellent) ∧
    (6 ≤ meanSuitability s → meanSuitability s < 8 → overallRating s = Rating.Good) ∧
    (4 ≤ meanSuitability s → meanSuitability s < 6 → overallRating s = Rating.Fair) ∧
    (meanSuitability s < 4 → overallRating s = Rating.Poor) ∧
    ∀ s2, s = s2 → overallRating s = overallRating s2 := by
  refine ⟨?_, ?_, ?_, ?_, ?_⟩
  · intro h8
    rw [overallRating, if_pos h8]
  · intro h6 h8
    rw [overallRating, if_neg (not_le.mpr h8), if_pos h6]
  · intro h4 h6
    rw [overallRating, if_neg (not_le.mpr (by linarith)), if_neg (not_le.mpr h6), if_pos h4]
  · intro h4
    rw [overallRating, if_neg (not_le.mpr (by linarith)),
      if_neg (not_le.mpr (by linarith)), if_neg (not_le.mpr h4)]
  · intro s2 h
    rw [h]

/-- Closed witness for C3: a suitability map with mean 9 rates Excellent and
one with mean 3 rates Poor. -/
theorem overallRating_buckets_witness :
    overallRating [("swimming", 9), ("surfing", 8), ("fishing", 9), ("boating", 10)] =
      Rating.Excellent ∧
    overallRating [("swimming", 2), ("surfing", 3), ("fishing", 4), ("boating", 3)] =
      Rating.Poor := by
  constructor
  · exact (overallRating_buckets _).1 (by norm_num [meanSuitability])
  · exact (overallRating_buckets
      [("swimming", 2), ("surfing", 3), ("fishing", 4), ("boating", 3)]).2.2.2.1
      (by norm_num [meanSuitability])

end TideTracker
